import Mathlib

/-!
Verification of the `statistics-problems` repository (chi-squared
goodness-of-fit test for normality and F-test for equality of variances).

Modelling conventions:
* `f64` values are modelled over `ℚ`; NaN/infinity do not exist in the
  model, and `ℚ` division by zero yields `0` where `f64` yields NaN/∞.
* The external `statrs` distribution library is modelled by an abstract
  environment `Env` of square-root / CDF / inverse-CDF functions, since the
  library is an external collaborator whose numerics are out of scope.
  Construction-failure conditions of `statrs` are modelled exactly:
  `Normal::new(mean, sd)` fails iff `sd ≤ 0`, `ChiSquared::new(k)` fails iff
  `k ≤ 0`, `FisherSnedecor::new(d1, d2)` fails iff `d1 ≤ 0 ∨ d2 ≤ 0`
  (the NaN cases are unrepresentable over `ℚ`).
* A Rust panic (`unwrap()` on a failed construction) is modelled by
  `Option.none`; a value that is returned normally is `Option.some`.
* Rust `Result<T, E>` is modelled by `Except E T`.
-/

namespace StatisticsProblems

/-- Abstract model of the external `statrs` collaborator: a square root on
rationals, `Normal(mean, std_dev).cdf x`, `ChiSquared(k).inverse_cdf p` and
`FisherSnedecor(d1, d2).inverse_cdf p`. -/
structure Env where
  sqrt : ℚ → ℚ
  normalCdf : ℚ → ℚ → ℚ → ℚ
  chiSquaredInvCdf : ℚ → ℚ → ℚ
  fisherSnedecorInvCdf : ℚ → ℚ → ℚ → ℚ

/-- Error enum `NDHError` of `normal_distribution_hypothesis.rs`. -/
inductive NDHError where
  | NonEqualSamplesLengths
  | SignificanceInvalid
  | FreedomDegreesInvalid
  deriving DecidableEq, Repr

/-- Error enum `SVHError` of `same_variance_hypothesis.rs`. -/
inductive SVHError where
  | SignificanceInvalid
  | FreedomDegreesInvalid
  deriving DecidableEq, Repr

/-- Struct `CompleteNDHProblemSituation`: both samples stored directly. -/
structure CompleteNDHProblemSituation where
  empirical_sample : List ℚ
  theoretical_sample : List ℚ
  significance : ℚ
  deriving DecidableEq, Repr

/-- Constructor `CompleteNDHProblemSituation::new` (lines 53-71): rejects
mismatched lengths, then significance outside `(0, 1)`. -/
def CompleteNDHProblemSituation.new (empirical_sample theoretical_sample : List ℚ)
    (significance : ℚ) : Except NDHError CompleteNDHProblemSituation :=
  if empirical_sample.length ≠ theoretical_sample.length then
    .error .NonEqualSamplesLengths
  else if ¬ (significance > 0 ∧ significance < 1) then
    .error .SignificanceInvalid
  else
    .ok ⟨empirical_sample, theoretical_sample, significance⟩

/-- Struct `IncompleteNDHProblemSituation`: bin ranges plus empirical counts. -/
structure IncompleteNDHProblemSituation where
  random_value_ranges : List (ℚ × ℚ)
  empirical_sample : List ℚ
  significance : ℚ
  deriving DecidableEq, Repr

/-- Constructor `IncompleteNDHProblemSituation::new` (lines 96-114). -/
def IncompleteNDHProblemSituation.new (random_value_ranges : List (ℚ × ℚ))
    (empirical_sample : List ℚ) (significance : ℚ) :
    Except NDHError IncompleteNDHProblemSituation :=
  if random_value_ranges.length ≠ empirical_sample.length then
    .error .NonEqualSamplesLengths
  else if ¬ (significance > 0 ∧ significance < 1) then
    .error .SignificanceInvalid
  else
    .ok ⟨random_value_ranges, empirical_sample, significance⟩

/-- The `mean` computed inside `theoretical_sample` (lines 123-129):
`(1 / Σ empirical) * Σ over zip of m * (x₂ + x₁) / 2`. -/
def IncompleteNDHProblemSituation.estimatedMean (s : IncompleteNDHProblemSituation) : ℚ :=
  (1 / s.empirical_sample.sum) *
    ((s.random_value_ranges.zip s.empirical_sample).map
      (fun p => p.2 * (p.1.2 + p.1.1) / 2)).sum

/-- The `variance` computed inside `theoretical_sample` (lines 131-137):
`(1 / Σ empirical) * Σ over zip of m * ((x₂ + x₁) / 2 - mean)²`. -/
def IncompleteNDHProblemSituation.estimatedVariance (s : IncompleteNDHProblemSituation) : ℚ :=
  (1 / s.empirical_sample.sum) *
    ((s.random_value_ranges.zip s.empirical_sample).map
      (fun p => p.2 * ((p.1.2 + p.1.1) / 2 - s.estimatedMean) ^ 2)).sum

/-- Method `IncompleteNDHProblemSituation::theoretical_sample` (lines 122-151).
`Normal::new(mean, std_dev).unwrap()` panics when the construction fails
(`std_dev ≤ 0` in the `ℚ` model); the panic is modelled by `none`. Otherwise
each bin `(x₁, x₂)` maps to `Σ empirical * (cdf x₂ - cdf x₁)`. -/
def IncompleteNDHProblemSituation.theoretical_sample (env : Env)
    (s : IncompleteNDHProblemSituation) : Option (List ℚ) :=
  let mean := s.estimatedMean
  let std_dev := env.sqrt s.estimatedVariance
  if std_dev ≤ 0 then
    none
  else
    some (s.random_value_ranges.map (fun r =>
      s.empirical_sample.sum *
        (env.normalCdf mean std_dev r.2 - env.normalCdf mean std_dev r.1)))

/-- Trait object `dyn NDHProblemSituation`: the capability set
`empirical_sample / theoretical_sample / significance`. A `theoretical_sample`
of `none` records that deriving it panics. -/
structure NDHProblemSituation where
  empirical_sample : List ℚ
  theoretical_sample : Option (List ℚ)
  significance : ℚ
  deriving DecidableEq, Repr

/-- The `impl NDHProblemSituation for CompleteNDHProblemSituation`
(lines 74-86): both samples returned as stored, never panicking. -/
def CompleteNDHProblemSituation.toSituation (s : CompleteNDHProblemSituation) :
    NDHProblemSituation :=
  ⟨s.empirical_sample, some s.theoretical_sample, s.significance⟩

/-- The `impl NDHProblemSituation for IncompleteNDHProblemSituation`
(lines 117-156): the theoretical sample is derived on demand. -/
def IncompleteNDHProblemSituation.toSituation (env : Env)
    (s : IncompleteNDHProblemSituation) : NDHProblemSituation :=
  ⟨s.empirical_sample, s.theoretical_sample env, s.significance⟩

/-- Function `calculate_chi_squared_critical_value` (lines 186-204):
significance is validated first, then `ChiSquared::new` (a Gamma underneath)
fails on non-positive degrees of freedom, and the critical value is the
`(1 - significance)`-quantile. -/
def calculate_chi_squared_critical_value (env : Env)
    (freedom_degrees significance : ℚ) : Except NDHError ℚ :=
  if ¬ (significance > 0 ∧ significance < 1) then
    .error .SignificanceInvalid
  else if ¬ (freedom_degrees > 0) then
    .error .FreedomDegreesInvalid
  else
    .ok (env.chiSquaredInvCdf freedom_degrees (1 - significance))

/-- The observed chi-squared statistic of `solve` (lines 172-178):
`Σ (e - t)² / t` over the zip of the two samples. -/
def chi_squared_observed (empirical theoretical : List ℚ) : ℚ :=
  ((empirical.zip theoretical).map (fun p => (p.1 - p.2) ^ 2 / p.2)).sum

/-- Struct `NormalDistributionHypothesis` (lines 158-160). -/
structure NormalDistributionHypothesis where
  situation : NDHProblemSituation

/-- Constructor `NormalDistributionHypothesis::new` (lines 163-165): wraps the
situation with no validation, always `Ok`. -/
def NormalDistributionHypothesis.new (situation : NDHProblemSituation) :
    Except NDHError NormalDistributionHypothesis :=
  .ok ⟨situation⟩

/-- Method `NormalDistributionHypothesis::solve` (lines 167-183). Degrees of
freedom are `len(empirical) - 2 - 1`; the critical value is computed (and its
errors returned) before the theoretical sample is accessed, so a panicking
derivation (`none`) only propagates in the `Ok` path of the critical value. -/
def NormalDistributionHypothesis.solve (env : Env)
    (h : NormalDistributionHypothesis) : Option (Except NDHError Bool) :=
  let freedom_degrees : ℚ := (h.situation.empirical_sample.length : ℚ) - 2 - 1
  match calculate_chi_squared_critical_value env freedom_degrees
      h.situation.significance with
  | .error e => some (.error e)
  | .ok chi_squared_critical_value =>
    match h.situation.theoretical_sample with
    | none => none
    | some t =>
      some (.ok (decide (chi_squared_observed h.situation.empirical_sample t <
        chi_squared_critical_value)))

/-- Struct `SameVarianceHypothesis` (lines 31-35) with its unchecked
constructor `new` (lines 38-44). -/
structure SameVarianceHypothesis where
  x_sample : List ℚ
  y_sample : List ℚ
  significance : ℚ
  deriving DecidableEq, Repr

/-- Closure `sample_mean` of `SameVarianceHypothesis::solve` (lines 47-48):
`(1 / n) * Σ sample`. -/
def sample_mean (sample : List ℚ) : ℚ :=
  (1 / (sample.length : ℚ)) * sample.sum

/-- Closure `unbiased_sample_variance` of `SameVarianceHypothesis::solve`
(lines 50-57): `(1 / (n - 1)) * Σ |value - mean|²`. -/
def unbiased_sample_variance (sample : List ℚ) : ℚ :=
  (1 / ((sample.length : ℚ) - 1)) *
    (sample.map (fun value => |value - sample_mean sample| ^ 2)).sum

/-- The observed F statistic of `solve` (lines 63, 76): the larger unbiased
variance divided by the smaller one. -/
def fisher_snedecor_observed (x_sample y_sample : List ℚ) : ℚ :=
  max (unbiased_sample_variance x_sample) (unbiased_sample_variance y_sample) /
    min (unbiased_sample_variance x_sample) (unbiased_sample_variance y_sample)

/-- Function `calculate_fished_snedecor_critical_value` (lines 89-108):
significance validated first, then `FisherSnedecor::new` fails on a
non-positive degree of freedom, and the critical value is the
`(1 - significance)`-quantile. -/
def calculate_fished_snedecor_critical_value (env : Env)
    (freedom_degrees_1 freedom_degrees_2 significance : ℚ) : Except SVHError ℚ :=
  if ¬ (significance > 0 ∧ significance < 1) then
    .error .SignificanceInvalid
  else if ¬ (freedom_degrees_1 > 0 ∧ freedom_degrees_2 > 0) then
    .error .FreedomDegreesInvalid
  else
    .ok (env.fisherSnedecorInvCdf freedom_degrees_1 freedom_degrees_2
      (1 - significance))

/-- Method `SameVarianceHypothesis::solve` (lines 46-86): numerator degrees of
freedom go with `x` exactly when `max(x_usv, y_usv) == x_usv`. -/
def SameVarianceHypothesis.solve (env : Env) (h : SameVarianceHypothesis) :
    Except SVHError Bool :=
  let x_usv := unbiased_sample_variance h.x_sample
  let y_usv := unbiased_sample_variance h.y_sample
  let max_usv := max x_usv y_usv
  let fd : ℚ × ℚ :=
    if max_usv = x_usv then
      (((h.x_sample.length : ℚ) - 1), ((h.y_sample.length : ℚ) - 1))
    else
      (((h.y_sample.length : ℚ) - 1), ((h.x_sample.length : ℚ) - 1))
  match calculate_fished_snedecor_critical_value env fd.1 fd.2 h.significance with
  | .error e => .error e
  | .ok fisher_snedecor_critical_value =>
    .ok (decide (fisher_snedecor_observed h.x_sample h.y_sample <
      fisher_snedecor_critical_value))

/-! Spec-side formulations, written from the specification wording, to be
compared with the code-side definitions above (refinement-style claims). -/

/-- Spec formulation: `midpoint = (lower + upper) / 2`. -/
def specMidpoint (r : ℚ × ℚ) : ℚ := (r.1 + r.2) / 2

/-- Spec formulation: total count `N = Σ empirical[i]`. -/
def specTotal (empirical : List ℚ) : ℚ := empirical.sum

/-- Spec formulation: `mean = (1/N) · Σ empirical[i] · midpoint(bin_i)`. -/
def specMean (ranges : List (ℚ × ℚ)) (empirical : List ℚ) : ℚ :=
  (1 / specTotal empirical) *
    ((ranges.zip empirical).map (fun p => p.2 * specMidpoint p.1)).sum

/-- Spec formulation:
`variance = (1/N) · Σ empirical[i] · (midpoint(bin_i) - mean)²`. -/
def specVariance (ranges : List (ℚ × ℚ)) (empirical : List ℚ) : ℚ :=
  (1 / specTotal empirical) *
    ((ranges.zip empirical).map
      (fun p => p.2 * (specMidpoint p.1 - specMean ranges empirical) ^ 2)).sum

/-- Spec formulation: `mean` as the arithmetic average of a sample. -/
def specArithmeticMean (sample : List ℚ) : ℚ :=
  sample.sum / (sample.length : ℚ)

/-- Spec formulation: unbiased sample variance
`s² = (1/(n-1)) · Σ (value - mean)²`. -/
def specUnbiasedVariance (sample : List ℚ) : ℚ :=
  (1 / ((sample.length : ℚ) - 1)) *
    (sample.map (fun value => (value - specArithmeticMean sample) ^ 2)).sum

/-! Bridge lemmas: the spec-side formulations agree with the code-side
computations over `ℚ`. -/

/-- The frequency-weighted mean of the spec: the mean of midpoints equals the `mean`
computed in `theoretical_sample`. -/
theorem specMean_eq_estimatedMean (s : IncompleteNDHProblemSituation) :
    specMean s.random_value_ranges s.empirical_sample = s.estimatedMean := by
  unfold specMean IncompleteNDHProblemSituation.estimatedMean specTotal specMidpoint
  congr 1
  exact congrArg List.sum (List.map_congr_left (fun p _ => by ring))

/-- The frequency-weighted variance of midpoints from the spec equals the `variance`
computed in `theoretical_sample`. -/
theorem specVariance_eq_estimatedVariance (s : IncompleteNDHProblemSituation) :
    specVariance s.random_value_ranges s.empirical_sample = s.estimatedVariance := by
  unfold specVariance IncompleteNDHProblemSituation.estimatedVariance specTotal specMidpoint
  rw [specMean_eq_estimatedMean]
  congr 1
  exact congrArg List.sum (List.map_congr_left (fun p _ => by ring))

/-- The closure `sample_mean` computes the arithmetic average. -/
theorem sample_mean_eq_specArithmeticMean (sample : List ℚ) :
    sample_mean sample = specArithmeticMean sample := by
  unfold sample_mean specArithmeticMean
  rw [one_div, inv_mul_eq_div]

/-- The closure `unbiased_sample_variance` (which squares an absolute value)
computes the unbiased sample variance of the spec. -/
theorem unbiased_sample_variance_eq_spec (sample : List ℚ) :
    unbiased_sample_variance sample = specUnbiasedVariance sample := by
  unfold unbiased_sample_variance specUnbiasedVariance
  rw [← sample_mean_eq_specArithmeticMean]
  congr 1
  exact congrArg List.sum (List.map_congr_left (fun v _ => sq_abs _))

/-- On a valid significance and positive degrees of freedom the chi-squared
critical-value service returns the `(1 - significance)`-quantile. -/
theorem calculate_chi_squared_critical_value_ok (env : Env) (fd sig : ℚ)
    (hfd : 0 < fd) (hsig : 0 < sig ∧ sig < 1) :
    calculate_chi_squared_critical_value env fd sig =
      .ok (env.chiSquaredInvCdf fd (1 - sig)) := by
  unfold calculate_chi_squared_critical_value
  rw [if_neg (not_not_intro hsig), if_neg (not_not_intro hfd)]

/-- On a valid significance but non-positive degrees of freedom the
chi-squared critical-value service fails with `FreedomDegreesInvalid`. -/
theorem calculate_chi_squared_critical_value_bad_dof (env : Env) (fd sig : ℚ)
    (hsig : 0 < sig ∧ sig < 1) (hfd : ¬ (fd > 0)) :
    calculate_chi_squared_critical_value env fd sig =
      .error .FreedomDegreesInvalid := by
  unfold calculate_chi_squared_critical_value
  rw [if_neg (not_not_intro hsig), if_pos hfd]

/-- On a valid significance and positive degrees of freedom the F
critical-value service returns the `(1 - significance)`-quantile. -/
theorem calculate_fished_snedecor_critical_value_ok (env : Env) (d1 d2 sig : ℚ)
    (h1 : 0 < d1) (h2 : 0 < d2) (hsig : 0 < sig ∧ sig < 1) :
    calculate_fished_snedecor_critical_value env d1 d2 sig =
      .ok (env.fisherSnedecorInvCdf d1 d2 (1 - sig)) := by
  unfold calculate_fished_snedecor_critical_value
  rw [if_neg (not_not_intro hsig), if_neg (not_not_intro ⟨h1, h2⟩)]

/-- On a valid significance but a non-positive degree of freedom the F
critical-value service fails with `FreedomDegreesInvalid`. -/
theorem calculate_fished_snedecor_critical_value_bad_dof (env : Env) (d1 d2 sig : ℚ)
    (hsig : 0 < sig ∧ sig < 1) (hd : ¬ (d1 > 0 ∧ d2 > 0)) :
    calculate_fished_snedecor_critical_value env d1 d2 sig =
      .error .FreedomDegreesInvalid := by
  unfold calculate_fished_snedecor_critical_value
  rw [if_neg (not_not_intro hsig), if_pos hd]

/-- The observed chi-squared statistic of a sample against itself vanishes. -/
theorem chi_squared_observed_self (l : List ℚ) : chi_squared_observed l l = 0 := by
  induction l with
  | nil => rfl
  | cons a l ih =>
    unfold chi_squared_observed at ih ⊢
    rw [List.zip_cons_cons, List.map_cons, List.sum_cons, ih]
    simp

/-- Shared reduction of `NormalDistributionHypothesis::solve` on the success
path: valid significance, positive degrees of freedom, a theoretical sample
that is derived without panicking. -/
theorem ndh_solve_eq (env : Env) (h : NormalDistributionHypothesis) (t : List ℚ)
    (ht : h.situation.theoretical_sample = some t)
    (hsig : 0 < h.situation.significance ∧ h.situation.significance < 1)
    (hfd : (0:ℚ) < (h.situation.empirical_sample.length : ℚ) - 2 - 1) :
    h.solve env = some (.ok (decide
      (chi_squared_observed h.situation.empirical_sample t <
        env.chiSquaredInvCdf ((h.situation.empirical_sample.length : ℚ) - 2 - 1)
          (1 - h.situation.significance)))) := by
  have hok := calculate_chi_squared_critical_value_ok env
    ((h.situation.empirical_sample.length : ℚ) - 2 - 1) h.situation.significance hfd hsig
  simp only [NormalDistributionHypothesis.solve, hok, ht]

/-! Concrete fixtures used by the witness theorems. -/

/-- Concrete model environment: identity square root, the normal CDF that
returns its point argument, and constant-one inverse CDFs. -/
def testEnv : Env := ⟨fun q => q, fun _ _ x => x, fun _ _ => 1, fun _ _ _ => 1⟩

/-- Concrete incomplete situation with two bins `(0,2)`, `(2,4)` and counts
`[1, 1]`: mean `2`, variance `1`. -/
def testIncomplete : IncompleteNDHProblemSituation := ⟨[(0, 2), (2, 4)], [1, 1], 1 / 2⟩

/-- Concrete incomplete situation with a single bin, whose midpoint variance
is `0`, so that the estimated standard deviation is `0`. -/
def zeroSdIncomplete : IncompleteNDHProblemSituation := ⟨[(0, 2)], [1], 1 / 2⟩

/-- C1: for an Incomplete Problem Situation with equally many bin ranges and
empirical counts, whenever the normal fit can be constructed (positive
standard deviation in the model), `theoretical_sample` returns the list that
maps the i-th bin `(lo, hi)` to `N · (CDF(hi) − CDF(lo))`, where `N` is the
total count and the CDF belongs to the normal distribution whose mean is the
frequency-weighted average of bin midpoints and whose standard deviation is
the square root of the frequency-weighted average squared deviation of
midpoints from that mean; the result has the same length (and bin order, being
a `List.map` over the ranges) as the empirical sample. -/
theorem incomplete_theoretical_sample_spec (env : Env)
    (s : IncompleteNDHProblemSituation)
    (hlen : s.random_value_ranges.length = s.empirical_sample.length)
    (hsd : 0 < env.sqrt (specVariance s.random_value_ranges s.empirical_sample)) :
    s.theoretical_sample env = some (s.random_value_ranges.map (fun r =>
      specTotal s.empirical_sample *
        (env.normalCdf (specMean s.random_value_ranges s.empirical_sample)
            (env.sqrt (specVariance s.random_value_ranges s.empirical_sample)) r.2 -
         env.normalCdf (specMean s.random_value_ranges s.empirical_sample)
            (env.sqrt (specVariance s.random_value_ranges s.empirical_sample)) r.1))) ∧
    (s.theoretical_sample env).map List.length = some s.empirical_sample.length := by
  rw [specVariance_eq_estimatedVariance] at hsd
  rw [specMean_eq_estimatedMean, specVariance_eq_estimatedVariance]
  have h1 : s.theoretical_sample env = some (s.random_value_ranges.map (fun r =>
      specTotal s.empirical_sample *
        (env.normalCdf s.estimatedMean (env.sqrt s.estimatedVariance) r.2 -
         env.normalCdf s.estimatedMean (env.sqrt s.estimatedVariance) r.1))) := by
    simp only [IncompleteNDHProblemSituation.theoretical_sample]
    rw [if_neg (not_le.mpr hsd)]
    rfl
  refine ⟨h1, ?_⟩
  rw [h1]
  simp [hlen]

/-- Witness for C1 at the concrete fixture `testIncomplete` in `testEnv`. -/
theorem incomplete_theoretical_sample_spec_witness :
    testIncomplete.theoretical_sample testEnv =
      some (testIncomplete.random_value_ranges.map (fun r =>
        specTotal testIncomplete.empirical_sample *
          (testEnv.normalCdf
              (specMean testIncomplete.random_value_ranges testIncomplete.empirical_sample)
              (testEnv.sqrt
                (specVariance testIncomplete.random_value_ranges
                  testIncomplete.empirical_sample)) r.2 -
           testEnv.normalCdf
              (specMean testIncomplete.random_value_ranges testIncomplete.empirical_sample)
              (testEnv.sqrt
                (specVariance testIncomplete.random_value_ranges
                  testIncomplete.empirical_sample)) r.1))) ∧
    (testIncomplete.theoretical_sample testEnv).map List.length =
      some testIncomplete.empirical_sample.length :=
  incomplete_theoretical_sample_spec testEnv testIncomplete (by norm_num [testIncomplete])
    (by norm_num [testEnv, testIncomplete, specVariance, specMean, specTotal, specMidpoint])

/-- C2: for any Problem Situation whose theoretical sample derives without
panicking, a significance in `(0, 1)` and `len(empirical) − 2 − 1 > 0`,
`solve` returns `Ok` of exactly the comparison
`Σ (e − t)² / t < inverse-chi-squared-CDF (len − 2 − 1) (1 − significance)`
(true iff the observed statistic is strictly below the critical value). The
situation is an arbitrary member of the trait capability set, so the
degrees-of-freedom formula applies identically to Complete and Incomplete
situations. -/
theorem ndh_solve_spec (env : Env) (h : NormalDistributionHypothesis) (t : List ℚ)
    (ht : h.situation.theoretical_sample = some t)
    (hlen : t.length = h.situation.empirical_sample.length)
    (hsig : 0 < h.situation.significance ∧ h.situation.significance < 1)
    (hn : 3 < h.situation.empirical_sample.length) :
    h.solve env = some (.ok (decide
      (chi_squared_observed h.situation.empirical_sample t <
        env.chiSquaredInvCdf ((h.situation.empirical_sample.length : ℚ) - 2 - 1)
          (1 - h.situation.significance)))) := by
  have hfd : (0:ℚ) < (h.situation.empirical_sample.length : ℚ) - 2 - 1 := by
    have h3 : (3:ℚ) < (h.situation.empirical_sample.length : ℚ) := by exact_mod_cast hn
    linarith
  exact ndh_solve_eq env h t ht hsig hfd

/-- Witness for C2 at a concrete complete situation in `testEnv`. -/
theorem ndh_solve_spec_witness :
    (NormalDistributionHypothesis.mk ⟨[1, 2, 3, 4], some [1, 1, 1, 1], 1 / 2⟩).solve testEnv =
      some (.ok (decide
        (chi_squared_observed [1, 2, 3, 4] [1, 1, 1, 1] <
          testEnv.chiSquaredInvCdf (((4:ℕ) : ℚ) - 2 - 1) (1 - 1 / 2)))) :=
  ndh_solve_spec testEnv ⟨⟨[1, 2, 3, 4], some [1, 1, 1, 1], 1 / 2⟩⟩ [1, 1, 1, 1]
    rfl rfl (by norm_num) (by norm_num)

/-- C4 counterexample: at the concrete incomplete situation with the single
bin `(0, 2)` and count `[1]`, the midpoint variance is `0`, so the estimated
standard deviation is `0` and `Normal::new(mean, 0).unwrap()` panics: the
derivation yields `none` (the model of a crash); no typed error result is
produced — the return type `Vec<f64>` of `theoretical_sample` has no error
channel at all, contradicting the claimed typed-error propagation. -/
theorem theoretical_sample_zero_sd_counterexample :
    zeroSdIncomplete.theoretical_sample testEnv = none := by
  norm_num [IncompleteNDHProblemSituation.theoretical_sample,
    IncompleteNDHProblemSituation.estimatedVariance,
    IncompleteNDHProblemSituation.estimatedMean, zeroSdIncomplete, testEnv]

/-- C4 amended: for every Incomplete Problem Situation whose estimated
standard deviation is not strictly positive (so the normal distribution
cannot be constructed), `theoretical_sample` panics (`unwrap` on the failed
`Normal::new`), modelled by `none` — it does not propagate a typed error. -/
theorem theoretical_sample_invalid_sd_panics (env : Env)
    (s : IncompleteNDHProblemSituation)
    (hsd : env.sqrt (specVariance s.random_value_ranges s.empirical_sample) ≤ 0) :
    s.theoretical_sample env = none := by
  rw [specVariance_eq_estimatedVariance] at hsd
  simp only [IncompleteNDHProblemSituation.theoretical_sample]
  rw [if_pos hsd]

/-- Witness for the amended C4 at a one-bin fixture with zero variance. -/
theorem theoretical_sample_invalid_sd_panics_witness :
    IncompleteNDHProblemSituation.theoretical_sample testEnv ⟨[(3, 5)], [2], 1 / 4⟩ = none :=
  theoretical_sample_invalid_sd_panics testEnv ⟨[(3, 5)], [2], 1 / 4⟩
    (by norm_num [testEnv, specVariance, specMean, specTotal, specMidpoint])

/-- C5: for every significance not strictly between `0` and `1`, both
engines return `SignificanceInvalid` instead of a boolean verdict, whatever
the samples are (the significance check precedes every other check in both
critical-value services). -/
theorem significance_invalid_rejected (env : Env) (significance : ℚ)
    (hsig : ¬ (significance > 0 ∧ significance < 1))
    (empirical : List ℚ) (theoretical : Option (List ℚ)) (x_sample y_sample : List ℚ) :
    (NormalDistributionHypothesis.mk ⟨empirical, theoretical, significance⟩).solve env =
      some (.error .SignificanceInvalid) ∧
    (SameVarianceHypothesis.mk x_sample y_sample significance).solve env =
      .error .SignificanceInvalid := by
  constructor
  · simp only [NormalDistributionHypothesis.solve, calculate_chi_squared_critical_value,
      if_pos hsig]
  · simp only [SameVarianceHypothesis.solve, calculate_fished_snedecor_critical_value,
      if_pos hsig]

/-- Witness for C5 at significance `0` (a value outside `(0, 1)`). -/
theorem significance_invalid_rejected_witness :
    (NormalDistributionHypothesis.mk ⟨[1], some [1], 0⟩).solve testEnv =
      some (.error .SignificanceInvalid) ∧
    (SameVarianceHypothesis.mk [1] [2] 0).solve testEnv =
      .error .SignificanceInvalid :=
  significance_invalid_rejected testEnv 0 (by norm_num) [1] (some [1]) [1] [2]

/-- C6 counterexample: for the constant samples `[1, 1]` and `[1, 1]` both
unbiased variances are `0`, so `F_observed` is `0/0` — NaN in `f64` (and `0`
in the `ℚ` model) — and the claimed invariant `F_observed ≥ 1` fails. -/
theorem fisher_observed_lt_one_counterexample :
    ¬ (1 ≤ fisher_snedecor_observed [1, 1] [1, 1]) := by
  norm_num [fisher_snedecor_observed, unbiased_sample_variance, sample_mean]

/-- C6 amended: whenever the smaller of the two unbiased sample variances is
strictly positive, the observed F statistic is at least `1`, because its
numerator is the larger of the two variances. -/
theorem fisher_observed_ge_one (x_sample y_sample : List ℚ)
    (hmin : 0 < min (unbiased_sample_variance x_sample)
      (unbiased_sample_variance y_sample)) :
    1 ≤ fisher_snedecor_observed x_sample y_sample := by
  unfold fisher_snedecor_observed
  rw [le_div_iff₀ hmin, one_mul]
  exact min_le_max

/-- Witness for the amended C6 at samples `[0, 2]` and `[0, 2]`, both of
unbiased variance `2`. -/
theorem fisher_observed_ge_one_witness :
    0 < min (unbiased_sample_variance [0, 2]) (unbiased_sample_variance [0, 2]) ∧
    1 ≤ fisher_snedecor_observed [0, 2] [0, 2] :=
  ⟨by norm_num [unbiased_sample_variance, sample_mean],
   fisher_observed_ge_one [0, 2] [0, 2]
     (by norm_num [unbiased_sample_variance, sample_mean])⟩

/-- C7: when the empirical and theoretical samples agree elementwise (and
every theoretical frequency is strictly positive), the observed chi-squared
statistic is exactly `0`; hence, for a significance in `(0, 1)` with valid
degrees of freedom — and the mathematically true positivity of the
chi-squared quantile, a property of the external library stated here as a
hypothesis on `env` — `solve` returns `Ok(true)`. -/
theorem equal_samples_verdict_true (env : Env) (h : NormalDistributionHypothesis)
    (t : List ℚ) (ht : h.situation.theoretical_sample = some t)
    (heq : h.situation.empirical_sample = t)
    (hpos : ∀ x ∈ t, 0 < x)
    (hsig : 0 < h.situation.significance ∧ h.situation.significance < 1)
    (hn : 3 < h.situation.empirical_sample.length)
    (hcrit : 0 < env.chiSquaredInvCdf
      ((h.situation.empirical_sample.length : ℚ) - 2 - 1)
      (1 - h.situation.significance)) :
    chi_squared_observed h.situation.empirical_sample t = 0 ∧
    h.solve env = some (.ok true) := by
  have hobs : chi_squared_observed h.situation.empirical_sample t = 0 := by
    rw [heq]; exact chi_squared_observed_self t
  have hfd : (0:ℚ) < (h.situation.empirical_sample.length : ℚ) - 2 - 1 := by
    have h3 : (3:ℚ) < (h.situation.empirical_sample.length : ℚ) := by exact_mod_cast hn
    linarith
  refine ⟨hobs, ?_⟩
  rw [ndh_solve_eq env h t ht hsig hfd, hobs, decide_eq_true hcrit]

/-- Witness for C7 at a complete situation with equal samples of length 4. -/
theorem equal_samples_verdict_true_witness :
    chi_squared_observed [1, 1, 1, 1] [1, 1, 1, 1] = 0 ∧
    (NormalDistributionHypothesis.mk ⟨[1, 1, 1, 1], some [1, 1, 1, 1], 1 / 2⟩).solve testEnv =
      some (.ok true) :=
  equal_samples_verdict_true testEnv ⟨⟨[1, 1, 1, 1], some [1, 1, 1, 1], 1 / 2⟩⟩
    [1, 1, 1, 1] rfl rfl (by norm_num) (by norm_num) (by norm_num) (by norm_num [testEnv])

/-- C8: constructing a Complete situation from samples of different lengths,
or an Incomplete situation from bin ranges and counts of different lengths,
returns the length-mismatch error `NonEqualSamplesLengths` — in particular
neither constructor can produce an instance with mismatched lengths, as the
`Except` result is an error, not an `ok`. -/
theorem length_mismatch_rejected (empirical theoretical : List ℚ)
    (ranges : List (ℚ × ℚ)) (counts : List ℚ) (sig sig2 : ℚ)
    (h1 : empirical.length ≠ theoretical.length)
    (h2 : ranges.length ≠ counts.length) :
    CompleteNDHProblemSituation.new empirical theoretical sig =
      .error .NonEqualSamplesLengths ∧
    IncompleteNDHProblemSituation.new ranges counts sig2 =
      .error .NonEqualSamplesLengths := by
  constructor
  · unfold CompleteNDHProblemSituation.new
    rw [if_pos h1]
  · unfold IncompleteNDHProblemSituation.new
    rw [if_pos h2]

/-- Witness for C8 at concretely mismatched inputs. -/
theorem length_mismatch_rejected_witness :
    CompleteNDHProblemSituation.new [1] [] (1 / 2) = .error .NonEqualSamplesLengths ∧
    IncompleteNDHProblemSituation.new [(0, 1)] [] (1 / 2) = .error .NonEqualSamplesLengths :=
  length_mismatch_rejected [1] [] [(0, 1)] [] (1 / 2) (1 / 2)
    (by norm_num) (by norm_num)

/-- C9: with a valid significance, every input whose degrees of freedom are
non-positive (empirical length at most `3` for the normal-distribution
engine, a sample of length at most `1` for the same-variance engine) makes
`solve` return the typed error `FreedomDegreesInvalid` (the name the code
gives to the `DistributionParametersInvalid` of the spec) rather than crashing — the error
is a returned value, and for the normal-distribution engine it is produced
before the theoretical sample is ever derived. -/
theorem nonpositive_dof_rejected (env : Env) (sit : NDHProblemSituation)
    (svh : SameVarianceHypothesis)
    (hsig1 : 0 < sit.significance ∧ sit.significance < 1)
    (hsig2 : 0 < svh.significance ∧ svh.significance < 1)
    (hn : sit.empirical_sample.length ≤ 3)
    (hxy : svh.x_sample.length ≤ 1 ∨ svh.y_sample.length ≤ 1) :
    (NormalDistributionHypothesis.mk sit).solve env =
      some (.error .FreedomDegreesInvalid) ∧
    svh.solve env = .error .FreedomDegreesInvalid := by
  constructor
  · have hfd : ¬ ((sit.empirical_sample.length : ℚ) - 2 - 1 > 0) := by
      have h3 : (sit.empirical_sample.length : ℚ) ≤ 3 := by exact_mod_cast hn
      linarith
    have hbad := calculate_chi_squared_critical_value_bad_dof env
      ((sit.empirical_sample.length : ℚ) - 2 - 1) sit.significance hsig1 hfd
    simp only [NormalDistributionHypothesis.solve, hbad]
  · have hone : ¬ (((svh.x_sample.length : ℚ) - 1) > 0) ∨
        ¬ (((svh.y_sample.length : ℚ) - 1) > 0) := by
      rcases hxy with hx | hy
      · left
        have h1 : ((svh.x_sample.length : ℚ)) ≤ 1 := by exact_mod_cast hx
        linarith
      · right
        have h1 : ((svh.y_sample.length : ℚ)) ≤ 1 := by exact_mod_cast hy
        linarith
    simp only [SameVarianceHypothesis.solve]
    by_cases hc : max (unbiased_sample_variance svh.x_sample)
        (unbiased_sample_variance svh.y_sample) = unbiased_sample_variance svh.x_sample
    · rw [if_pos hc]
      have hd : ¬ (((svh.x_sample.length : ℚ) - 1 > 0) ∧
          ((svh.y_sample.length : ℚ) - 1 > 0)) :=
        fun hcc => hone.elim (fun hb => hb hcc.1) (fun hb => hb hcc.2)
      have hbad := calculate_fished_snedecor_critical_value_bad_dof env
        ((svh.x_sample.length : ℚ) - 1) ((svh.y_sample.length : ℚ) - 1)
        svh.significance hsig2 hd
      simp only [hbad]
    · rw [if_neg hc]
      have hd : ¬ (((svh.y_sample.length : ℚ) - 1 > 0) ∧
          ((svh.x_sample.length : ℚ) - 1 > 0)) :=
        fun hcc => hone.elim (fun hb => hb hcc.2) (fun hb => hb hcc.1)
      have hbad := calculate_fished_snedecor_critical_value_bad_dof env
        ((svh.y_sample.length : ℚ) - 1) ((svh.x_sample.length : ℚ) - 1)
        svh.significance hsig2 hd
      simp only [hbad]

/-- Witness for C9: an NDH empirical sample of length 2 (degrees of freedom
`-1`) and an SVH sample of length 1 (degrees of freedom `0`). -/
theorem nonpositive_dof_rejected_witness :
    (NormalDistributionHypothesis.mk ⟨[1, 2], some [1, 1], 1 / 2⟩).solve testEnv =
      some (.error .FreedomDegreesInvalid) ∧
    (SameVarianceHypothesis.mk [5] [1, 2, 3] (1 / 2)).solve testEnv =
      .error .FreedomDegreesInvalid :=
  nonpositive_dof_rejected testEnv ⟨[1, 2], some [1, 1], 1 / 2⟩
    ⟨[5], [1, 2, 3], 1 / 2⟩ (by norm_num) (by norm_num) (by norm_num)
    (Or.inl (by norm_num))

/-- C3: for samples of length at least 2 each and a significance in `(0, 1)`,
`SameVarianceHypothesis::solve` returns `Ok` of exactly the comparison of
`F_observed = max(s²_x, s²_y) / min(s²_x, s²_y)` (with `s²` the specified
unbiased sample variance about the arithmetic mean) against the
`(1 − significance)`-quantile of the F distribution whose numerator degrees
of freedom `n − 1` come from the sample with the larger variance — from `x`
when the variances are exactly equal — and whose denominator degrees of
freedom come from the other sample. -/
theorem svh_solve_spec (env : Env) (h : SameVarianceHypothesis)
    (hx : 2 ≤ h.x_sample.length) (hy : 2 ≤ h.y_sample.length)
    (hsig : 0 < h.significance ∧ h.significance < 1) :
    h.solve env = .ok (decide
      (max (specUnbiasedVariance h.x_sample) (specUnbiasedVariance h.y_sample) /
        min (specUnbiasedVariance h.x_sample) (specUnbiasedVariance h.y_sample) <
       env.fisherSnedecorInvCdf
         (if specUnbiasedVariance h.y_sample ≤ specUnbiasedVariance h.x_sample
          then (h.x_sample.length : ℚ) - 1 else (h.y_sample.length : ℚ) - 1)
         (if specUnbiasedVariance h.y_sample ≤ specUnbiasedVariance h.x_sample
          then (h.y_sample.length : ℚ) - 1 else (h.x_sample.length : ℚ) - 1)
         (1 - h.significance))) := by
  have hdx : (0:ℚ) < (h.x_sample.length : ℚ) - 1 := by
    have h2 : (2:ℚ) ≤ (h.x_sample.length : ℚ) := by exact_mod_cast hx
    linarith
  have hdy : (0:ℚ) < (h.y_sample.length : ℚ) - 1 := by
    have h2 : (2:ℚ) ≤ (h.y_sample.length : ℚ) := by exact_mod_cast hy
    linarith
  rw [← unbiased_sample_variance_eq_spec h.x_sample,
    ← unbiased_sample_variance_eq_spec h.y_sample]
  simp only [SameVarianceHypothesis.solve]
  by_cases hc : max (unbiased_sample_variance h.x_sample)
      (unbiased_sample_variance h.y_sample) = unbiased_sample_variance h.x_sample
  · have hyx : unbiased_sample_variance h.y_sample ≤
        unbiased_sample_variance h.x_sample := max_eq_left_iff.mp hc
    rw [if_pos hc, if_pos hyx, if_pos hyx]
    have hok := calculate_fished_snedecor_critical_value_ok env
      ((h.x_sample.length : ℚ) - 1) ((h.y_sample.length : ℚ) - 1) h.significance
      hdx hdy hsig
    simp only [hok, fisher_snedecor_observed]
  · have hyx : ¬ (unbiased_sample_variance h.y_sample ≤
        unbiased_sample_variance h.x_sample) := fun hle => hc (max_eq_left hle)
    rw [if_neg hc, if_neg hyx, if_neg hyx]
    have hok := calculate_fished_snedecor_critical_value_ok env
      ((h.y_sample.length : ℚ) - 1) ((h.x_sample.length : ℚ) - 1) h.significance
      hdy hdx hsig
    simp only [hok, fisher_snedecor_observed]

/-- Witness for C3 at samples `[0, 2]` (variance 2) and `[0, 4]` (variance 8)
with significance `1/2`. -/
theorem svh_solve_spec_witness :
    (SameVarianceHypothesis.mk [0, 2] [0, 4] (1 / 2)).solve testEnv = .ok (decide
      (max (specUnbiasedVariance [0, 2]) (specUnbiasedVariance [0, 4]) /
        min (specUnbiasedVariance [0, 2]) (specUnbiasedVariance [0, 4]) <
       testEnv.fisherSnedecorInvCdf
         (if specUnbiasedVariance [0, 4] ≤ specUnbiasedVariance [0, 2]
          then ((2:ℕ) : ℚ) - 1 else ((2:ℕ) : ℚ) - 1)
         (if specUnbiasedVariance [0, 4] ≤ specUnbiasedVariance [0, 2]
          then ((2:ℕ) : ℚ) - 1 else ((2:ℕ) : ℚ) - 1)
         (1 - 1 / 2))) :=
  svh_solve_spec testEnv ⟨[0, 2], [0, 4], 1 / 2⟩ (by norm_num) (by norm_num) (by norm_num)

/-- C10: `NormalDistributionHypothesis::new` is infallible — it returns `Ok`
of the wrapped situation for every boxed Problem Situation, performing no
validation of its own despite the `Result` return type. -/
theorem ndh_new_infallible (situation : NDHProblemSituation) :
    NormalDistributionHypothesis.new situation = .ok ⟨situation⟩ := rfl

end StatisticsProblems
